import Mathlib

/-!
Verification of the SBP payment lifecycle orchestrator against its source.

Shallow embedding of app/services/payment_service.py,
app/services/sberbank_service.py, app/api/v1/endpoints/callback.py,
app/api/dependencies.py and app/models/payment.py.  Database tables are
lists of rows, timestamps are abstract natural numbers, and the gateway
and fiscal collaborators are supplied as explicit outcome parameters.
Monetary sums are carried as integers: no claim depends on decimal or
float arithmetic, the sums only flow through unchanged.
-/

/-- Payment states, from the PaymentState enum in app/models/payment.py. -/
inductive PaymentState where
  | PAID
  | CREATED
  | REVERSED
  | REFUNDED
  | REVOKED
  | DECLINED
  | EXPIRED
  | AUTHORIZED
  | CONFIRMED
  | ON_PAYMENT
deriving DecidableEq, Repr

/-- A row of the PAY_SBP_LOG2 table (class PaymentLog in
app/models/payment.py).  The order_state column is nullable in the schema
but every code path writing a row sets it, so it is modelled as
non-optional; order_sum (a nullable Float column) is modelled as an
integer for the same reason. -/
structure PaymentLog where
  sbp_id : Nat
  uid : Option Int
  account : String
  rq_uid : Option String
  order_sum : Int
  order_create_date : Option Nat
  order_id : Option String
  order_state : PaymentState
  order_form_url : Option String
  rq_tm : Option Nat
  operation_date_time : Option Nat
  error_code : Option String
  error_description : Option String
  source_payments : Option String
  fiscal_email : Option String
  fiscal_phone : Option String
deriving DecidableEq, Repr

/-- A row of the FEE table (class Fee in app/models/payment.py). -/
structure FeeRow where
  fid : Nat
  uid : Option Int
  date_pay : Nat
  sum_paid : Int
  method : Nat
  comment : Option String
  ticket_id : String
deriving DecidableEq, Repr

/-- The persistent store: the two tables owned by the service plus the
CUSTOMER billing table (pin to uid) consulted by _get_customer_uid. -/
structure Db where
  payments : List PaymentLog
  fees : List FeeRow
  customers : List (String × Int)
deriving DecidableEq, Repr

namespace PaymentService

/-- PaymentService._map_sberbank_status: the dict lookup with default
PaymentState.CREATED, rendered as a chain of equality tests. -/
def map_sberbank_status (status : Int) : PaymentState :=
  if status = 0 then .CREATED
  else if status = 1 then .AUTHORIZED
  else if status = 2 then .PAID
  else if status = 3 then .DECLINED
  else if status = 4 then .REFUNDED
  else if status = 5 then .ON_PAYMENT
  else if status = 6 then .DECLINED
  else .CREATED

/-- PaymentService._map_operation_to_status: the dict lookup with default
PaymentState.CREATED. -/
def map_operation_to_status (operation : String) : PaymentState :=
  if operation = "created" then .CREATED
  else if operation = "approved" then .AUTHORIZED
  else if operation = "deposited" then .PAID
  else if operation = "reversed" then .DECLINED
  else if operation = "refunded" then .REFUNDED
  else if operation = "declinedByTimeout" then .EXPIRED
  else if operation = "subscriptionCreated" then .PAID
  else .CREATED

/-- The set of column assignments carried by one update_data dict.  A field
holding none means the key is absent from the dict; some v means the key is
present and sets the column to v. -/
structure UpdateData where
  uid : Option (Option Int) := none
  order_id : Option (Option String) := none
  order_state : Option PaymentState := none
  order_form_url : Option (Option String) := none
  error_code : Option (Option String) := none
  error_description : Option (Option String) := none
  operation_date_time : Option (Option Nat) := none
deriving Repr

/-- The setattr loop of _update_payment_by_id applied to one row: every key
present in the dict overwrites the matching column. -/
def applyUpdate (u : UpdateData) (p : PaymentLog) : PaymentLog :=
  { p with
    uid := u.uid.getD p.uid
    order_id := u.order_id.getD p.order_id
    order_state := u.order_state.getD p.order_state
    order_form_url := u.order_form_url.getD p.order_form_url
    error_code := u.error_code.getD p.error_code
    error_description := u.error_description.getD p.error_description
    operation_date_time := u.operation_date_time.getD p.operation_date_time }

/-- PaymentService._update_payment_by_id: fetch the row with the given
primary key, apply the assignments, commit.  sbp_id is the primary key, so
mapping over all rows with a matching key denotes the same update. -/
def update_payment_by_id (db : Db) (sbp_id : Nat) (u : UpdateData) : Db :=
  { db with payments :=
      db.payments.map fun q => if q.sbp_id == sbp_id then applyUpdate u q else q }

/-- PaymentService._get_payment_by_id. -/
def get_payment_by_id (db : Db) (sbp_id : Nat) : Option PaymentLog :=
  db.payments.find? fun q => q.sbp_id == sbp_id

/-- PaymentService._get_payment_by_order_id. -/
def get_payment_by_order_id (db : Db) (order_id : String) : Option PaymentLog :=
  db.payments.find? fun q => q.order_id == some order_id

/-- PaymentService._get_customer_uid: SELECT uid FROM CUSTOMER WHERE
pin = account LIMIT 1. -/
def get_customer_uid (db : Db) (account : String) : Option Int :=
  (db.customers.find? fun c => c.1 == account).map fun c => c.2

/-- The autoincrement value the database assigns to the next inserted FEE
row: one past the largest fid in the table. -/
def nextFid (rows : List FeeRow) : Nat :=
  1 + rows.foldr (fun r acc => max r.fid acc) 0

/-- Whether inserting the candidate row into FEE violates a unique index
DECLARED on the Fee model: the primary key on fid and the unique index
XPKFEE on the pair of uid and fid.  These are the only unique indexes in
app/models/payment.py (init_db creates the schema from the model with
Base.metadata.create_all); the index on uid, comment and ticket_id named
by the docstring of _insert_to_fee is not declared. -/
def fee_unique_conflict (rows : List FeeRow) (r : FeeRow) : Bool :=
  rows.any fun q => q.fid == r.fid || (q.uid == r.uid && q.fid == r.fid)

/-- PaymentService._insert_to_fee: INSERT IGNORE of the fee row, commit,
and when the statement reported an inserted row, SELECT fid ... LIMIT 1 by
uid, comment and ticket_id.  INSERT IGNORE skips the row exactly when it
collides with a unique index of the table; now supplies datetime.now for
the date_pay fallback chain. -/
def insert_to_fee (db : Db) (payment : PaymentLog) (now : Nat) :
    Option Nat × Db :=
  let date_pay := (payment.operation_date_time.orElse fun _ =>
    payment.rq_tm).getD now
  let row : FeeRow :=
    { fid := nextFid db.fees
      uid := payment.uid
      date_pay := date_pay
      sum_paid := payment.order_sum
      method := 5
      comment := payment.order_id
      ticket_id := "SBP" }
  if fee_unique_conflict db.fees row then
    (none, db)
  else
    let fees := db.fees ++ [row]
    let sel := fees.find? fun q =>
      q.uid == payment.uid && q.comment == payment.order_id &&
        q.ticket_id == "SBP"
    (sel.map fun q => q.fid, { db with fees := fees })

/-- AtolService.send_fiscal_receipt as seen by the orchestrator: the call
either returns or raises AtolException; the parameter selects the outcome
of this one call. -/
def send_fiscal_receipt (atolFails : Bool) (fid : Nat) : Except String Nat :=
  if atolFails then .error "AtolException" else .ok fid

/-- PaymentService._process_paid_payment.  The whole body runs inside a
try block whose handler only logs, so the function always returns; on a
none from _insert_to_fee it returns before the fiscal call; a raise from
the fiscal call is swallowed without touching the tables.  The second
component lists the fid arguments of the send_fiscal_receipt calls made. -/
def process_paid_payment (atolFails : Bool) (db : Db) (payment : PaymentLog)
    (now : Nat) : Db × List Nat :=
  match insert_to_fee db payment now with
  | (none, db1) => (db1, [])
  | (some fid, db1) =>
    match send_fiscal_receipt atolFails fid with
    | .ok _ => (db1, [fid])
    | .error _ => (db1, [fid])

/-- PaymentService.process_callback_payment.  The record is resolved by
order_id first (only when the string is non-empty, after Python
truthiness), falling back to the sbp_id parsed from orderNumber; a
callback with status other than 1 only updates the error description; a
successful callback overwrites order_state with the mapped status
unconditionally, and for a deposited operation the payment is re-fetched
by order_id and fed to _process_paid_payment.  The outer try swallows
every exception, so the function always returns.  The second component
lists the fids passed to the fiscal client. -/
def process_callback_payment (atolFails : Bool) (db : Db)
    (order_id order_number operation : String) (status : Int) (now : Nat) :
    Db × List Nat :=
  let byOrder := if order_id ≠ "" then get_payment_by_order_id db order_id
    else none
  let payment? := match byOrder with
    | some p => some p
    | none =>
      match order_number.toNat? with
      | some sbp_id => get_payment_by_id db sbp_id
      | none => none
  match payment? with
  | none => (db, [])
  | some p =>
    if status ≠ 1 then
      (update_payment_by_id db p.sbp_id
        { error_description :=
            some (some ("Callback failed with status " ++ toString status))
          operation_date_time := some (some now) }, [])
    else
      let new_status := map_operation_to_status operation
      let db1 := update_payment_by_id db p.sbp_id
        { order_state := some new_status
          operation_date_time := some (some now) }
      if operation == "deposited" && new_status == PaymentState.PAID then
        match get_payment_by_order_id db1 order_id with
        | some updated => process_paid_payment atolFails db1 updated now
        | none => (db1, [])
      else (db1, [])

end PaymentService

/-- The getOrderStatusExtended fields the orchestrator reads. -/
structure SbOrderStatus where
  errorCode : String
  orderStatus : Option Int
  depositedDate : Option Nat
deriving DecidableEq, Repr

/-- The errorCode and errorMessage pair of a gateway cancel or refund
response. -/
structure GatewayResult where
  errorCode : String
  errorMessage : Option String
deriving DecidableEq, Repr

/-- The response schema of the status endpoint. -/
structure PaymentStatusResponse where
  success : Bool
  sbp_id : Nat
  rq_uid : Option String
  order_id : Option String
  status : PaymentState
  amount : Option Int
  account : String
  created_at : Option Nat
  operation_time : Option Nat
deriving DecidableEq, Repr

/-- The response schema of the cancel endpoint. -/
structure PaymentCancelResponse where
  success : Bool
  sbp_id : Nat
  order_id : String
  status : PaymentState
  message : String
deriving DecidableEq, Repr

/-- The response schema of the refund endpoint. -/
structure PaymentRefundResponse where
  success : Bool
  sbp_id : Nat
  order_id : String
  status : PaymentState
  refund_amount : Int
  message : String
deriving DecidableEq, Repr

/-- The request schema of the create endpoint. -/
structure PaymentCreateRequest where
  account : String
  amount : Int
  phone : Option String
  email : Option String
  paymentStat : String
deriving DecidableEq, Repr

/-- The response schema of the create endpoint. -/
structure PaymentCreateResponse where
  success : Bool
  sbp_id : Nat
  rq_uid : String
  order_id : Option String
  qrcode_link : String
  qr_url : Option String
  amount : Int
  status : PaymentState
deriving DecidableEq, Repr

/-- Python keyword binding for a call made with keyword arguments only: it
succeeds iff every keyword names a parameter and every parameter without a
default value is supplied; otherwise the call raises TypeError before the
callee body runs.  Each parameter is a name paired with whether it has a
default. -/
def kwargs_bind_ok (params : List (String × Bool)) (kwargs : List String) :
    Bool :=
  kwargs.all (fun k => params.any fun p => p.1 == k) &&
  params.all fun p => p.2 || kwargs.contains p.1

namespace PaymentService

/-- The response the status endpoint builds from a payment row; an
order_sum of 0 is falsy in Python, so the amount field is then omitted. -/
def status_response_from (p : PaymentLog) : PaymentStatusResponse :=
  { success := true, sbp_id := p.sbp_id, rq_uid := p.rq_uid
    order_id := p.order_id, status := p.order_state
    amount := if p.order_sum ≠ 0 then some p.order_sum else none
    account := p.account, created_at := p.order_create_date
    operation_time := p.operation_date_time }

/-- PaymentService.get_payment_status.  The gateway outcome is a
parameter: an error stands for any exception from
sberbank_service.get_payment_status, which the inner try downgrades to a
warning.  On errorCode 0 the code commits an update clearing the error
fields; the state update and the PAID processing that follow are commented
out in the source, so a changed state is only assigned to the in-memory
object (reflected in the response) and never committed, and no fiscal call
is made (third component).  A missing record raises PaymentException. -/
def get_payment_status (db : Db) (order_id : String)
    (sb : Except Unit SbOrderStatus) :
    Except String (Db × PaymentStatusResponse × List Nat) :=
  match get_payment_by_order_id db order_id with
  | none => .error "Payment not found"
  | some p =>
    match sb with
    | .error _ => .ok (db, status_response_from p, [])
    | .ok r =>
      if r.errorCode = "0" then
        let p1 := { p with error_code := none, error_description := none }
        let db1 := update_payment_by_id db p.sbp_id
          { error_code := some none, error_description := some none }
        let new_status := map_sberbank_status (r.orderStatus.getD 0)
        if p1.order_state ≠ new_status then
          .ok (db1, status_response_from { p1 with order_state := new_status },
            [])
        else
          .ok (db1, status_response_from p1, [])
      else .ok (db, status_response_from p, [])

/-- PaymentService.cancel_payment.  The gateway outcome of decline.do is
the gw parameter.  On a business error the record is set to DECLINED with
the error fields; afterwards, unconditionally (the raise is commented
out), the record is set to DECLINED again and a success response is
returned. -/
def cancel_payment (db : Db) (order_id : String) (gw : GatewayResult)
    (now : Nat) : Except String (Db × PaymentCancelResponse) :=
  match get_payment_by_order_id db order_id with
  | none => .error "Payment not found"
  | some p =>
    let db1 :=
      if gw.errorCode ≠ "0" then
        update_payment_by_id db p.sbp_id
          { order_state := some .DECLINED
            error_code := some (some gw.errorCode)
            error_description :=
              some (some (gw.errorMessage.getD "Unknown error"))
            operation_date_time := some (some now) }
      else db
    let db2 := update_payment_by_id db1 p.sbp_id
      { order_state := some .DECLINED
        operation_date_time := some (some now) }
    .ok (db2,
      { success := true, sbp_id := p.sbp_id, order_id := order_id
        status := .DECLINED, message := "Payment cancelled successfully" })

/-- PaymentService.refund_payment.  A Python falsy amount (absent or zero)
falls back to the stored order_sum.  On a business error the record is set
to DECLINED with the error fields; afterwards, unconditionally (the raise
is commented out), the record is set to REFUNDED and a success response is
returned. -/
def refund_payment (db : Db) (order_id : String) (amount : Option Int)
    (gw : GatewayResult) (now : Nat) :
    Except String (Db × PaymentRefundResponse) :=
  match get_payment_by_order_id db order_id with
  | none => .error "Payment not found"
  | some p =>
    let refund_amount_kopecks :=
      (match amount with
       | some a => if a ≠ 0 then a else p.order_sum
       | none => p.order_sum) * 100
    let db1 :=
      if gw.errorCode ≠ "0" then
        update_payment_by_id db p.sbp_id
          { order_state := some .DECLINED
            error_code := some (some gw.errorCode)
            error_description :=
              some (some (gw.errorMessage.getD "Unknown error"))
            operation_date_time := some (some now) }
      else db
    let db2 := update_payment_by_id db1 p.sbp_id
      { order_state := some .REFUNDED
        operation_date_time := some (some now) }
    .ok (db2,
      { success := true, sbp_id := p.sbp_id, order_id := order_id
        status := .REFUNDED, refund_amount := refund_amount_kopecks / 100
        message := "Payment refunded successfully" })

/-- The autoincrement primary key the insert into PAY_SBP_LOG2 assigns. -/
def next_sbp_id (payments : List PaymentLog) : Nat :=
  1 + payments.foldr (fun p acc => max p.sbp_id acc) 0

/-- Python truthiness of an optional string: an absent or empty string is
falsy and the field is then not stored. -/
def truthy_str (s : Option String) : Option String :=
  match s with
  | some v => if v = "" then none else some v
  | none => none

/-- The signature of SberbankService.create_qr_code: five parameters, all
without defaults. -/
def create_qr_code_params : List (String × Bool) :=
  [("order_number", false), ("amount", false), ("description", false),
   ("email", false), ("source_payments", false)]

/-- The keyword arguments create_payment passes to create_qr_code:
source_payments is missing. -/
def create_payment_qr_kwargs : List String :=
  ["order_number", "amount", "description", "email"]

/-- PaymentService._create_payment_log: INSERT of the new row into
PAY_SBP_LOG2 followed by commit.  The uid column is declared NOT NULL
without a default in the PaymentLog model (the schema init_db creates
with Base.metadata.create_all), and a value explicitly set to None is
sent as NULL, which the database rejects for a single-row INSERT in every
sql_mode; the commit then raises and nothing is persisted.  The remaining
NOT NULL column, account, carries a default and is always supplied. -/
def create_payment_log (db : Db) (p : PaymentLog) : Except String Db :=
  if p.uid.isNone then
    .error "IntegrityError: column uid cannot be null"
  else
    .ok { db with payments := db.payments ++ [p] }

/-- PaymentService.create_payment.  The function builds a CREATED row
with uid None and inserts it first; the uid column is NOT NULL, so the
insert raises, the outer handler re-raises PaymentException, the store is
unchanged and the gateway call site is never reached (third component
false).  The branches after the insert transcribe the source text that
follows it: the unknown-account branch would set the row to DECLINED and
answer a failure, and the known-account branch would reach the gateway
call site, whose keyword binding omits the required source_payments
parameter (create_qr_code_call_binding_fails below) and would raise
TypeError. -/
def create_payment (db : Db) (req : PaymentCreateRequest) (rq_uid : String)
    (now : Nat) : Db × Except String PaymentCreateResponse × Bool :=
  let sid := next_sbp_id db.payments
  let payment : PaymentLog :=
    { sbp_id := sid, uid := none, account := req.account
      rq_uid := some rq_uid, order_sum := req.amount
      order_create_date := some now, order_id := none
      order_state := .CREATED, order_form_url := none, rq_tm := some now
      operation_date_time := none, error_code := none
      error_description := none, source_payments := some req.paymentStat
      fiscal_email := truthy_str req.email
      fiscal_phone := truthy_str req.phone }
  match create_payment_log db payment with
  | .error _ => (db, .error "Failed to create payment", false)
  | .ok db0 =>
    match get_customer_uid db0 req.account with
    | none =>
      let db1 := update_payment_by_id db0 sid
        { error_description := some (some "Пользователь не найден")
          order_state := some .DECLINED }
      (db1,
        .ok { success := false, sbp_id := sid, rq_uid := rq_uid
              order_id := none, qrcode_link := "", qr_url := none
              amount := req.amount, status := .DECLINED }, false)
    | some _ =>
      (db0, .error "Failed to create payment", true)

end PaymentService

namespace SberbankService

/-- The register.do response fields the orchestrator reads. -/
structure RegisterResult where
  errorCode : String
  errorMessage : Option String
  orderId : Option String
  sbpPayload : Option String
  formUrl : Option String
deriving DecidableEq, Repr

/-- The outcome one HTTP attempt against the gateway can have. -/
inductive HttpOutcome (α : Type) where
  | timeoutErr
  | statusErr (code : Nat)
  | requestErr
  | jsonErr
  | ok (result : α)
deriving DecidableEq, Repr

/-- The single exception class every error path of SberbankService raises:
SberbankAPIException. -/
inductive SbExn where
  | sberbankAPI (msg : String)
deriving DecidableEq, Repr

/-- SberbankService.create_qr_code.  The attempts parameter gives, for
each n, the outcome the nth HTTP attempt would have; the body performs
exactly one request (the second component counts the attempts made) and
classifies its outcome: every transport, status, parse and business error
is raised at once as SberbankAPIException, with no retry loop or
backoff. -/
def create_qr_code (attempts : Nat → HttpOutcome RegisterResult) :
    Except SbExn RegisterResult × Nat :=
  match attempts 0 with
  | .ok r =>
    if r.errorCode ≠ "0" then (.error (.sberbankAPI "Sberbank API error"), 1)
    else (.ok r, 1)
  | .timeoutErr => (.error (.sberbankAPI "Request timed out"), 1)
  | .statusErr _ => (.error (.sberbankAPI "HTTP status error"), 1)
  | .requestErr => (.error (.sberbankAPI "Request error"), 1)
  | .jsonErr => (.error (.sberbankAPI "Invalid JSON response"), 1)

/-- SberbankService.get_payment_status: one request, httpx errors raised
at once as SberbankAPIException (message HTTP error), any other exception
as SberbankAPIException (message Unexpected error); the parsed body is
returned whatever its errorCode. -/
def get_order_status (attempts : Nat → HttpOutcome SbOrderStatus) :
    Except SbExn SbOrderStatus × Nat :=
  match attempts 0 with
  | .ok r => (.ok r, 1)
  | .timeoutErr => (.error (.sberbankAPI "HTTP error"), 1)
  | .statusErr _ => (.error (.sberbankAPI "HTTP error"), 1)
  | .requestErr => (.error (.sberbankAPI "HTTP error"), 1)
  | .jsonErr => (.error (.sberbankAPI "Unexpected error"), 1)

end SberbankService

/-- The signature of PaymentService.process_callback_payment: order_id and
the other four parameters, with a default only on additional_params. -/
def process_callback_payment_params : List (String × Bool) :=
  [("order_id", false), ("order_number", false), ("operation", false),
   ("status", false), ("additional_params", true)]

/-- The keyword arguments handle_payment_callback passes: md_order instead
of order_id. -/
def callback_handler_kwargs : List String :=
  ["md_order", "order_number", "operation", "status", "additional_params"]

/-- The fields the callback endpoint extracts from the notification
body. -/
structure CallbackBody where
  mdOrder : Option String
  orderNumber : Option String
  operation : Option String
  status : Option Int
deriving DecidableEq, Repr

/-- The service invocation the callback endpoint makes: the keyword
binding against the signature of process_callback_payment is checked
first; when it fails the call raises TypeError before the service body
runs and no state changes. -/
def callback_service_call (atolFails : Bool) (db : Db) (md onum op : String)
    (st : Int) (now : Nat) : Except String Db :=
  if kwargs_bind_ok process_callback_payment_params callback_handler_kwargs then
    .ok (PaymentService.process_callback_payment atolFails db md onum op st
      now).1
  else
    .error "TypeError: unexpected keyword argument md_order"

/-- handle_payment_callback in app/api/v1/endpoints/callback.py: missing
or falsy mdOrder, orderNumber or operation and missing status answer 400;
a failed signature validation only logs a warning and never blocks; then
the service call is made, a success answers 200, and any exception is
caught by the generic handler which answers 500 Failed to process
callback.  The result pairs the store with the HTTP status answered. -/
def handle_payment_callback (atolFails : Bool) (db : Db)
    (body : CallbackBody) (now : Nat) : Db × Nat :=
  match body.mdOrder with
  | none => (db, 400)
  | some md =>
    if md = "" then (db, 400) else
    match body.orderNumber with
    | none => (db, 400)
    | some onum =>
      if onum = "" then (db, 400) else
      match body.operation with
      | none => (db, 400)
      | some op =>
        if op = "" then (db, 400) else
        match body.status with
        | none => (db, 400)
        | some st =>
          match callback_service_call atolFails db md onum op st now with
          | .ok db1 => (db1, 200)
          | .error _ => (db, 500)

/-- The allow-list from app/api/dependencies.py. -/
def ALLOWED_CALLBACK_IPS : List String :=
  ["84.252.147.143", "185.157.97.241"]

/-- verify_callback_ip in app/api/dependencies.py: a missing or
non-allow-listed client ip is answered with HTTP 403. -/
def verify_callback_ip (client_ip : Option String) : Except String Unit :=
  match client_ip with
  | none => .error "Unable to verify client IP"
  | some ip =>
    if ALLOWED_CALLBACK_IPS.contains ip then .ok ()
    else .error "Access denied"

/-- The dependencies declared by the wired v1 callback route (the only
notification endpoint included by api_v1_router; webhook.py is not
included by any router): only get_payment_service_safe. -/
def handle_payment_callback_dependencies : List String :=
  ["get_payment_service_safe"]

/-- Dispatch of a notification as the application routes it: the route
resolves its declared dependencies, none of which is verify_callback_ip,
and invokes the handler; the source ip is never consulted. -/
def dispatch_callback (atolFails : Bool) (db : Db)
    (_clientIp : Option String) (body : CallbackBody) (now : Nat) :
    Db × Nat :=
  handle_payment_callback atolFails db body now

/-- A payment record that has already been reconciled to PAID and whose
first fiscalization pass inserted the FEE row below. -/
def c1Payment : PaymentLog :=
  { sbp_id := 1, uid := some 10, account := "100001", rq_uid := some "rq1"
    order_sum := 500, order_create_date := some 1, order_id := some "ORD1"
    order_state := .PAID, order_form_url := some "qr", rq_tm := some 1
    operation_date_time := some 2, error_code := none
    error_description := none, source_payments := some "sbpStat"
    fiscal_email := some "user at host", fiscal_phone := none }

/-- The FEE row written by the first processing of c1Payment. -/
def c1FeeRow : FeeRow :=
  { fid := 1, uid := some 10, date_pay := 2, sum_paid := 500, method := 5
    comment := some "ORD1", ticket_id := "SBP" }

/-- The store right after the first successful fiscalization of c1Payment:
the FEE table holds exactly one entry for uid 10 and order ORD1. -/
def c1Db : Db :=
  { payments := [c1Payment], fees := [c1FeeRow]
    customers := [("100001", 10)] }

/-- Concrete inputs for the C10 witness: a PAID payment not yet
fiscalized. -/
def c10Payment : PaymentLog :=
  { sbp_id := 2, uid := some 3, account := "100002", rq_uid := some "rq2"
    order_sum := 700, order_create_date := some 3, order_id := some "ORDX"
    order_state := .PAID, order_form_url := some "qr", rq_tm := some 3
    operation_date_time := some 4, error_code := none
    error_description := none, source_payments := some "sbpStat"
    fiscal_email := none, fiscal_phone := none }

/-- The store before fiscalizing c10Payment. -/
def c10Db : Db :=
  { payments := [c10Payment], fees := [], customers := [("100002", 3)] }

/-- The FEE row the fiscalization of c10Payment inserts. -/
def c10FeeRow : FeeRow :=
  { fid := 1, uid := some 3, date_pay := 4, sum_paid := 700, method := 5
    comment := some "ORDX", ticket_id := "SBP" }

/-- The store after the ledger insert for c10Payment. -/
def c10Db1 : Db := { c10Db with fees := [c10FeeRow] }

/-- A payment record in the terminal state DECLINED, for the replayed
notification scenario. -/
def c2Payment : PaymentLog :=
  { sbp_id := 5, uid := some 20, account := "100005", rq_uid := some "rq5"
    order_sum := 300, order_create_date := some 1, order_id := some "ORD2"
    order_state := .DECLINED, order_form_url := some "qr", rq_tm := some 1
    operation_date_time := some 2, error_code := some "7"
    error_description := some "declined", source_payments := some "sbpStat"
    fiscal_email := none, fiscal_phone := none }

/-- The store holding only the declined payment. -/
def c2Db : Db := { payments := [c2Payment], fees := [], customers := [] }

/-- A payment still in CREATED, about to be polled. -/
def c3Payment : PaymentLog :=
  { sbp_id := 3, uid := some 30, account := "100003", rq_uid := some "rq3"
    order_sum := 400, order_create_date := some 1, order_id := some "ORD3"
    order_state := .CREATED, order_form_url := some "qr", rq_tm := some 1
    operation_date_time := none, error_code := none
    error_description := none, source_payments := some "sbpStat"
    fiscal_email := none, fiscal_phone := none }

/-- The store holding only the created payment. -/
def c3Db : Db := { payments := [c3Payment], fees := [], customers := [] }

/-- A gateway poll response reporting orderStatus 2, the paid code. -/
def c3SbResp : SbOrderStatus :=
  { errorCode := "0", orderStatus := some 2, depositedDate := some 123 }

/-- The committed store after the poll: only the error fields were
touched. -/
def c3Db1 : Db :=
  PaymentService.update_payment_by_id c3Db c3Payment.sbp_id
    { error_code := some none, error_description := some none }

/-- The response the poll returns for the c3 scenario: the PAID status is
reflected only here. -/
def c3Resp : PaymentStatusResponse :=
  PaymentService.status_response_from
    { c3Payment with error_code := none, error_description := none
                     order_state := .PAID }

/-- An attempt sequence whose first attempt times out and whose second
would succeed. -/
def c4Good : SberbankService.RegisterResult :=
  { errorCode := "0", errorMessage := none, orderId := some "ORD4"
    sbpPayload := some "payload", formUrl := some "url" }

/-- First attempt a timeout, every later attempt a success. -/
def c4Attempts : Nat → SberbankService.HttpOutcome SberbankService.RegisterResult :=
  fun n => if n = 0 then .timeoutErr else .ok c4Good

/-- A gateway body reporting a business error. -/
def c4BizErr : SberbankService.RegisterResult :=
  { errorCode := "7", errorMessage := some "rejected", orderId := none
    sbpPayload := none, formUrl := none }

/-- A payment in PAID, target of the cancel and refund scenarios. -/
def c5Payment : PaymentLog :=
  { sbp_id := 7, uid := some 70, account := "100007", rq_uid := some "rq7"
    order_sum := 900, order_create_date := some 1, order_id := some "ORD5"
    order_state := .PAID, order_form_url := some "qr", rq_tm := some 1
    operation_date_time := some 2, error_code := none
    error_description := none, source_payments := some "sbpStat"
    fiscal_email := none, fiscal_phone := none }

/-- The store holding only the paid payment. -/
def c5Db : Db := { payments := [c5Payment], fees := [], customers := [] }

/-- A gateway business error: nonzero errorCode with a message. -/
def c5ErrGw : GatewayResult :=
  { errorCode := "7", errorMessage := some "operation rejected" }

/-- A store for the callback endpoint scenario. -/
def c6Db : Db := { payments := [c2Payment], fees := [], customers := [] }

/-- A well-formed notification body for the deposited operation. -/
def c7Body : CallbackBody :=
  { mdOrder := some "ORD2", orderNumber := some "5"
    operation := some "deposited", status := some 1 }

/-- A store for the dispatch scenario of the origin check. -/
def c7Db : Db := { payments := [], fees := [], customers := [] }

/-- A create request whose account has no CUSTOMER row in the store used
by the c9 witness. -/
def c9Req : PaymentCreateRequest :=
  { account := "999999", amount := 150, phone := none
    email := some "someone", paymentStat := "sbpStat" }

/-- A store with no customers at all. -/
def c9Db : Db := { payments := [], fees := [], customers := [] }

/-- C8: for every integer status code, _map_sberbank_status returns exactly
the fixed table value (0 CREATED, 1 AUTHORIZED, 2 PAID, 3 DECLINED,
4 REFUNDED, 5 ON_PAYMENT, 6 DECLINED) and CREATED for any other integer;
for every string operation name, _map_operation_to_status returns exactly
the fixed table value and CREATED for any other string.  Both are plain
functions of their argument, hence pure and deterministic. -/
theorem c8_status_and_operation_tables :
    (PaymentService.map_sberbank_status 0 = .CREATED ∧
     PaymentService.map_sberbank_status 1 = .AUTHORIZED ∧
     PaymentService.map_sberbank_status 2 = .PAID ∧
     PaymentService.map_sberbank_status 3 = .DECLINED ∧
     PaymentService.map_sberbank_status 4 = .REFUNDED ∧
     PaymentService.map_sberbank_status 5 = .ON_PAYMENT ∧
     PaymentService.map_sberbank_status 6 = .DECLINED) ∧
    (∀ n : Int, n ≠ 0 → n ≠ 1 → n ≠ 2 → n ≠ 3 → n ≠ 4 → n ≠ 5 → n ≠ 6 →
      PaymentService.map_sberbank_status n = .CREATED) ∧
    (PaymentService.map_operation_to_status "created" = .CREATED ∧
     PaymentService.map_operation_to_status "approved" = .AUTHORIZED ∧
     PaymentService.map_operation_to_status "deposited" = .PAID ∧
     PaymentService.map_operation_to_status "reversed" = .DECLINED ∧
     PaymentService.map_operation_to_status "refunded" = .REFUNDED ∧
     PaymentService.map_operation_to_status "declinedByTimeout" = .EXPIRED ∧
     PaymentService.map_operation_to_status "subscriptionCreated" = .PAID) ∧
    (∀ s : String, s ≠ "created" → s ≠ "approved" → s ≠ "deposited" →
      s ≠ "reversed" → s ≠ "refunded" → s ≠ "declinedByTimeout" →
      s ≠ "subscriptionCreated" →
      PaymentService.map_operation_to_status s = .CREATED) := by
  refine ⟨by decide, ?_, by decide, ?_⟩
  · intro n h0 h1 h2 h3 h4 h5 h6
    simp [PaymentService.map_sberbank_status, h0, h1, h2, h3, h4, h5, h6]
  · intro s h0 h1 h2 h3 h4 h5 h6
    simp [PaymentService.map_operation_to_status, h0, h1, h2, h3, h4, h5, h6]

/-- Witness for C8: the theorem instantiated at the unmapped code 42 and
the unmapped operation name zzz. -/
theorem c8_status_and_operation_tables_witness :
    PaymentService.map_sberbank_status 42 = .CREATED ∧
    PaymentService.map_operation_to_status "zzz" = .CREATED := by
  refine ⟨?_, ?_⟩
  · exact c8_status_and_operation_tables.2.1 42 (by decide) (by decide)
      (by decide) (by decide) (by decide) (by decide) (by decide)
  · exact c8_status_and_operation_tables.2.2.2 "zzz" (by decide) (by decide)
      (by decide) (by decide) (by decide) (by decide) (by decide)

/-- C1: the claim states that processing a replayed PAID notification for a
payment already fiscalized leaves the FEE entry count for its uid and
order_id at exactly 1 and does not invoke the fiscal client again, the
dedupe being decided by INSERT IGNORE.  Evaluating _process_paid_payment at
such a state shows the opposite: the Fee model declares no unique index
over uid, comment and ticket_id (only the fid primary key and XPKFEE on
uid and fid, both satisfied by the fresh autoincrement fid), so the second
INSERT IGNORE inserts a second row, the entry count becomes 2, and
send_fiscal_receipt is called a second time (with fid 1, the fid the
LIMIT 1 lookup returns). -/
theorem c1_replayed_paid_fiscalizes_again :
    (PaymentService.process_paid_payment false c1Db c1Payment 3).2 = [1] ∧
    ((PaymentService.process_paid_payment false c1Db c1Payment 3).1.fees.filter
        fun q => q.uid == some (10 : Int) && q.comment == some "ORD1" &&
          q.ticket_id == "SBP").length = 2 := by
  decide

/-- C10: once the ledger insert for a PAID payment has succeeded, a failure
of the fiscal receipt call changes nothing: the result of
_process_paid_payment is the same whether the atol call raises or not, the
payment table (hence the PAID state) is untouched, and the inserted ledger
entry persists (the FEE table grew by exactly the inserted row and is not
rolled back); the function returns normally in both cases. -/
theorem c10_fiscal_failure_isolated
    (db : Db) (p : PaymentLog) (now fid : Nat) (db1 : Db)
    (h : PaymentService.insert_to_fee db p now = (some fid, db1))
    (b : Bool) :
    PaymentService.process_paid_payment b db p now = (db1, [fid]) ∧
    db1.payments = db.payments ∧
    db.fees.length + 1 = db1.fees.length := by
  have h2 := h
  simp only [PaymentService.insert_to_fee] at h2
  split at h2
  · rw [Prod.mk.injEq] at h2
    exact absurd h2.1 (by simp)
  · rw [Prod.mk.injEq] at h2
    obtain ⟨hsel, hdb⟩ := h2
    refine ⟨?_, ?_, ?_⟩
    · simp only [PaymentService.process_paid_payment, h]
      cases b <;> simp [PaymentService.send_fiscal_receipt]
    · rw [← hdb]
    · rw [← hdb]
      simp

theorem insert_to_fee_payments (db : Db) (p : PaymentLog) (now : Nat) :
    (PaymentService.insert_to_fee db p now).2.payments = db.payments := by
  simp only [PaymentService.insert_to_fee]
  split
  · rfl
  · rfl

theorem process_paid_payment_payments (b : Bool) (db : Db) (p : PaymentLog)
    (now : Nat) :
    (PaymentService.process_paid_payment b db p now).1.payments =
      db.payments := by
  simp only [PaymentService.process_paid_payment]
  rcases h : PaymentService.insert_to_fee db p now with ⟨fid?, db1⟩
  have h1 : db1.payments = db.payments := by
    have h2 := insert_to_fee_payments db p now
    rw [h] at h2
    exact h2
  rcases fid? with _ | fid
  · exact h1
  · cases b <;> simp only [PaymentService.send_fiscal_receipt] <;> exact h1

theorem update_fees_unchanged (db : Db) (sid : Nat)
    (u : PaymentService.UpdateData) :
    (PaymentService.update_payment_by_id db sid u).fees = db.fees := rfl

theorem update_payments_length (db : Db) (sid : Nat)
    (u : PaymentService.UpdateData) :
    (PaymentService.update_payment_by_id db sid u).payments.length =
      db.payments.length := by
  simp [PaymentService.update_payment_by_id]

theorem mem_update_decomp (db : Db) (sid : Nat)
    (u : PaymentService.UpdateData) (q : PaymentLog)
    (hq : q ∈ (PaymentService.update_payment_by_id db sid u).payments) :
    (∃ x ∈ db.payments, x.sbp_id = sid ∧ q = PaymentService.applyUpdate u x) ∨
      (q ∈ db.payments ∧ q.sbp_id ≠ sid) := by
  simp only [PaymentService.update_payment_by_id, List.mem_map] at hq
  obtain ⟨x, hx, hfx⟩ := hq
  by_cases h : x.sbp_id = sid
  · left
    have hqx : q = PaymentService.applyUpdate u x := by
      rw [← hfx, if_pos (by simp [h])]
    exact ⟨x, hx, h, hqx⟩
  · right
    have hqx : q = x := by
      rw [← hfx, if_neg (by simp [h])]
    rw [hqx]
    exact ⟨hx, h⟩

theorem update_sets_order_state (db : Db) (sid : Nat)
    (u : PaymentService.UpdateData) (s : PaymentState)
    (hu : u.order_state = some s) :
    ∀ q ∈ (PaymentService.update_payment_by_id db sid u).payments,
      q.sbp_id = sid → q.order_state = s := by
  intro q hq hqs
  rcases mem_update_decomp db sid u q hq with ⟨x, _, _, hqx⟩ | ⟨_, hne⟩
  · rw [hqx]
    simp [PaymentService.applyUpdate, hu]
  · exact absurd hqs hne

theorem update_sets_error_code (db : Db) (sid : Nat)
    (u : PaymentService.UpdateData) (e : Option String)
    (hu : u.error_code = some e) :
    ∀ q ∈ (PaymentService.update_payment_by_id db sid u).payments,
      q.sbp_id = sid → q.error_code = e := by
  intro q hq hqs
  rcases mem_update_decomp db sid u q hq with ⟨x, _, _, hqx⟩ | ⟨_, hne⟩
  · rw [hqx]
    simp [PaymentService.applyUpdate, hu]
  · exact absurd hqs hne

theorem update_keeps_error_code (db : Db) (sid : Nat)
    (u : PaymentService.UpdateData) (hu : u.error_code = none)
    (q : PaymentLog)
    (hq : q ∈ (PaymentService.update_payment_by_id db sid u).payments)
    (hqs : q.sbp_id = sid) :
    ∃ x ∈ db.payments, x.sbp_id = sid ∧ q.error_code = x.error_code := by
  rcases mem_update_decomp db sid u q hq with ⟨x, hx, hxs, hqx⟩ | ⟨_, hne⟩
  · refine ⟨x, hx, hxs, ?_⟩
    rw [hqx]
    simp [PaymentService.applyUpdate, hu]
  · exact absurd hqs hne

theorem update_keeps_order_states (db : Db) (sid : Nat)
    (u : PaymentService.UpdateData) (hu : u.order_state = none) :
    (PaymentService.update_payment_by_id db sid u).payments.map
        (fun q => q.order_state) =
      db.payments.map fun q => q.order_state := by
  simp only [PaymentService.update_payment_by_id]
  generalize db.payments = l
  induction l with
  | nil => rfl
  | cons a t ih =>
    simp only [List.map_cons, List.map, ih]
    congr 1
    by_cases h : (a.sbp_id == sid) = true
    · rw [if_pos h]
      simp [PaymentService.applyUpdate, hu]
    · rw [if_neg h]

theorem callback_success_payments (atolFails : Bool) (db : Db)
    (order_id order_number operation : String) (now : Nat) (p : PaymentLog)
    (hne : order_id ≠ "")
    (hfind : PaymentService.get_payment_by_order_id db order_id = some p) :
    (PaymentService.process_callback_payment atolFails db order_id
        order_number operation 1 now).1.payments =
      (PaymentService.update_payment_by_id db p.sbp_id
        { order_state := some (PaymentService.map_operation_to_status
            operation)
          operation_date_time := some (some now) }).payments := by
  simp only [PaymentService.process_callback_payment, if_pos hne, hfind]
  rw [if_neg (by decide : ¬((1 : Int) ≠ 1))]
  split
  · rcases h2 : PaymentService.get_payment_by_order_id
        (PaymentService.update_payment_by_id db p.sbp_id
          { order_state := some (PaymentService.map_operation_to_status
              operation)
            operation_date_time := some (some now) }) order_id with _ | u
    · rfl
    · exact process_paid_payment_payments atolFails _ u now
  · rfl

/-- C2 counterexample: a payment in the terminal state DECLINED receives a
replayed successful deposited notification via process_callback_payment
and its state becomes PAID — the function overwrites the state without
consulting the current one, so the claimed terminal-state monotonicity is
false. -/
theorem c2_declined_resurrected_counterexample :
    ((PaymentService.process_callback_payment false c2Db "ORD2" "5"
        "deposited" 1 9).1.payments.map fun q => q.order_state) =
      [PaymentState.PAID] ∧
    c2Payment.order_state = PaymentState.DECLINED := by decide

/-- C2 amended: process_callback_payment applies the mapped status of a
successful notification to the resolved record unconditionally — every
record with that primary key ends in the mapped state whatever its prior
state, terminal or not; there is no terminal-state guard. -/
theorem c2_successful_callback_overwrites_state (atolFails : Bool) (db : Db)
    (order_id order_number operation : String) (now : Nat) (p : PaymentLog)
    (hne : order_id ≠ "")
    (hfind : PaymentService.get_payment_by_order_id db order_id = some p) :
    ∀ q ∈ (PaymentService.process_callback_payment atolFails db order_id
        order_number operation 1 now).1.payments,
      q.sbp_id = p.sbp_id →
        q.order_state = PaymentService.map_operation_to_status operation := by
  intro q hq hsid
  rw [callback_success_payments atolFails db order_id order_number operation
    now p hne hfind] at hq
  exact update_sets_order_state db p.sbp_id _ _ rfl q hq hsid

/-- Witness for C2: the amended theorem instantiated at the declined
payment, a replayed deposited notification, and the concrete record the
processing produces. -/
theorem c2_successful_callback_overwrites_state_witness :
    ({ c2Payment with
        order_state := PaymentState.PAID
        operation_date_time := some 9 } : PaymentLog).order_state =
      PaymentService.map_operation_to_status "deposited" :=
  c2_successful_callback_overwrites_state false c2Db "ORD2" "5" "deposited"
    9 c2Payment (by decide) (by decide)
    { c2Payment with
      order_state := PaymentState.PAID
      operation_date_time := some 9 }
    (by decide) (by decide)

/-- C3 counterexample: polling a CREATED payment that the gateway reports
with orderStatus 2 returns a PAID response, but the committed store still
holds CREATED (only the error fields were committed) and no fiscal call is
made — the poll path neither persists the PAID transition nor invokes the
fiscalization path, so the claim is false. -/
theorem c3_poll_no_fiscalization_counterexample :
    PaymentService.get_payment_status c3Db "ORD3" (.ok c3SbResp) =
      .ok (c3Db1, c3Resp, []) ∧
    c3Resp.status = PaymentState.PAID ∧
    c3Db1.payments.map (fun q => q.order_state) = [PaymentState.CREATED] ∧
    c3Db1.fees = [] := ⟨rfl, rfl, by decide, rfl⟩

/-- C3 amended: the poll path never triggers fiscalization and never
changes any persisted order_state: whenever get_payment_status returns, it
made no fiscal call, left every order_state column as it was, and left the
FEE table untouched; a PAID status observed by the poll is reflected only
in the returned response. -/
theorem c3_poll_frame (db : Db) (order_id : String)
    (sb : Except Unit SbOrderStatus) (db1 : Db)
    (resp : PaymentStatusResponse) (calls : List Nat)
    (h : PaymentService.get_payment_status db order_id sb =
      .ok (db1, resp, calls)) :
    calls = [] ∧
    db1.payments.map (fun q => q.order_state) =
      db.payments.map (fun q => q.order_state) ∧
    db1.fees = db.fees := by
  simp only [PaymentService.get_payment_status] at h
  split at h
  · exact Except.noConfusion h
  · rename_i p hp
    split at h
    · simp only [Except.ok.injEq, Prod.mk.injEq] at h
      obtain ⟨hdb, _, hcalls⟩ := h
      refine ⟨hcalls.symm, ?_, ?_⟩ <;> rw [← hdb]
    · rename_i r
      by_cases hec : r.errorCode = "0"
      · rw [if_pos hec] at h
        split at h <;>
        · simp only [Except.ok.injEq, Prod.mk.injEq] at h
          obtain ⟨hdb, _, hcalls⟩ := h
          refine ⟨hcalls.symm, ?_, ?_⟩
          · rw [← hdb]
            exact update_keeps_order_states db p.sbp_id _ rfl
          · rw [← hdb]
            exact update_fees_unchanged db p.sbp_id _
      · rw [if_neg hec] at h
        simp only [Except.ok.injEq, Prod.mk.injEq] at h
        obtain ⟨hdb, _, hcalls⟩ := h
        refine ⟨hcalls.symm, ?_, ?_⟩ <;> rw [← hdb]

/-- Witness for C3: the amended theorem instantiated at the CREATED
payment polled while the gateway reports the paid code. -/
theorem c3_poll_frame_witness :
    ([] : List Nat) = [] ∧
    c3Db1.payments.map (fun q => q.order_state) =
      c3Db.payments.map (fun q => q.order_state) ∧
    c3Db1.fees = c3Db.fees :=
  c3_poll_frame c3Db "ORD3" (.ok c3SbResp) c3Db1 c3Resp [] rfl

/-- C4 counterexample: with an attempt sequence whose first attempt times
out and whose second would succeed, create_qr_code surfaces the error
after exactly one attempt — there is no retry, no backoff and no cap of 3
— and the surfaced exception is the same SberbankAPIException class a
business error produces, so the claimed retry policy and the claimed
distinct transport-exhaustion error are both false. -/
theorem c4_transport_error_not_retried_counterexample :
    SberbankService.create_qr_code c4Attempts =
      (.error (.sberbankAPI "Request timed out"), 1) ∧
    c4Attempts 1 = .ok c4Good ∧
    SberbankService.create_qr_code (fun _ => .ok c4BizErr) =
      (.error (.sberbankAPI "Sberbank API error"), 1) :=
  ⟨rfl, rfl, rfl⟩

/-- C4 amended: every gateway call performs exactly one HTTP attempt,
whatever the outcome sequence — transient transport errors, status errors
and malformed bodies alike are surfaced at once as SberbankAPIException
(the same exception class as a business error) with no retry loop. -/
theorem c4_gateway_single_attempt :
    (∀ g : Nat → SberbankService.HttpOutcome SberbankService.RegisterResult,
      (SberbankService.create_qr_code g).2 = 1) ∧
    (∀ g : Nat → SberbankService.HttpOutcome SbOrderStatus,
      (SberbankService.get_order_status g).2 = 1) := by
  constructor
  · intro g
    rcases h : g 0 with _ | c | _ | _ | r
    all_goals simp only [SberbankService.create_qr_code, h]
    split <;> rfl
  · intro g
    rcases h : g 0 with _ | c | _ | _ | r
    all_goals simp only [SberbankService.get_order_status, h]

/-- C5 counterexample: a payment in PAID, cancelled or refunded while the
gateway answers the business error code 7, ends DECLINED (cancel) or
REFUNDED (refund) instead of keeping its state, and both calls return
success — the claim that the state is left as-is and the failure is
surfaced is false. -/
theorem c5_business_error_opaque_success_counterexample :
    c5Payment.order_state = PaymentState.PAID ∧
    ((PaymentService.cancel_payment c5Db "ORD5" c5ErrGw 9).toOption.map
      fun r => (r.2.success, r.1.payments.map fun q => q.order_state)) =
      some (true, [PaymentState.DECLINED]) ∧
    ((PaymentService.refund_payment c5Db "ORD5" none c5ErrGw 9).toOption.map
      fun r => (r.2.success, r.1.payments.map fun q => q.order_state)) =
      some (true, [PaymentState.REFUNDED]) := by
  refine ⟨rfl, ?_, ?_⟩ <;> decide

/-- C5 amended: on a gateway business error cancel_payment records the
error fields but sets the state to DECLINED, and refund_payment records
the error fields and then sets the state to REFUNDED — masking the
previous state in both cases — and both return a success response (the
raise of PaymentException is commented out in the source). -/
theorem c5_business_error_masks_state (db : Db) (order_id : String)
    (gw : GatewayResult) (now : Nat) (amount : Option Int) (p : PaymentLog)
    (hfind : PaymentService.get_payment_by_order_id db order_id = some p)
    (herr : gw.errorCode ≠ "0") :
    (∃ db2 resp,
      PaymentService.cancel_payment db order_id gw now = .ok (db2, resp) ∧
      resp.success = true ∧ resp.status = .DECLINED ∧
      ∀ q ∈ db2.payments, q.sbp_id = p.sbp_id →
        q.order_state = .DECLINED ∧ q.error_code = some gw.errorCode) ∧
    (∃ db2 resp,
      PaymentService.refund_payment db order_id amount gw now =
        .ok (db2, resp) ∧
      resp.success = true ∧ resp.status = .REFUNDED ∧
      ∀ q ∈ db2.payments, q.sbp_id = p.sbp_id →
        q.order_state = .REFUNDED ∧ q.error_code = some gw.errorCode) := by
  constructor
  · refine ⟨PaymentService.update_payment_by_id
        (PaymentService.update_payment_by_id db p.sbp_id
          { order_state := some .DECLINED
            error_code := some (some gw.errorCode)
            error_description :=
              some (some (gw.errorMessage.getD "Unknown error"))
            operation_date_time := some (some now) })
        p.sbp_id
        { order_state := some .DECLINED
          operation_date_time := some (some now) },
      { success := true, sbp_id := p.sbp_id, order_id := order_id
        status := .DECLINED, message := "Payment cancelled successfully" },
      ?_, rfl, rfl, ?_⟩
    · simp only [PaymentService.cancel_payment, hfind, if_pos herr]
    · intro q hq hqs
      refine ⟨update_sets_order_state _ p.sbp_id _ _ rfl q hq hqs, ?_⟩
      obtain ⟨x, hx, hxs, hqe⟩ :=
        update_keeps_error_code _ p.sbp_id _ rfl q hq hqs
      rw [hqe]
      exact update_sets_error_code db p.sbp_id _ _ rfl x hx hxs
  · refine ⟨PaymentService.update_payment_by_id
        (PaymentService.update_payment_by_id db p.sbp_id
          { order_state := some .DECLINED
            error_code := some (some gw.errorCode)
            error_description :=
              some (some (gw.errorMessage.getD "Unknown error"))
            operation_date_time := some (some now) })
        p.sbp_id
        { order_state := some .REFUNDED
          operation_date_time := some (some now) },
      { success := true, sbp_id := p.sbp_id, order_id := order_id
        status := .REFUNDED
        refund_amount :=
          ((match amount with
            | some a => if a ≠ 0 then a else p.order_sum
            | none => p.order_sum) * 100) / 100
        message := "Payment refunded successfully" },
      ?_, rfl, rfl, ?_⟩
    · simp only [PaymentService.refund_payment, hfind, if_pos herr]
    · intro q hq hqs
      refine ⟨update_sets_order_state _ p.sbp_id _ _ rfl q hq hqs, ?_⟩
      obtain ⟨x, hx, hxs, hqe⟩ :=
        update_keeps_error_code _ p.sbp_id _ rfl q hq hqs
      rw [hqe]
      exact update_sets_error_code db p.sbp_id _ _ rfl x hx hxs

/-- Witness for C5: the amended theorem instantiated at the paid payment
and the business error code 7. -/
theorem c5_business_error_masks_state_witness :
    (∃ db2 resp,
      PaymentService.cancel_payment c5Db "ORD5" c5ErrGw 9 =
        .ok (db2, resp) ∧
      resp.success = true ∧ resp.status = .DECLINED ∧
      ∀ q ∈ db2.payments, q.sbp_id = c5Payment.sbp_id →
        q.order_state = .DECLINED ∧ q.error_code = some c5ErrGw.errorCode) ∧
    (∃ db2 resp,
      PaymentService.refund_payment c5Db "ORD5" none c5ErrGw 9 =
        .ok (db2, resp) ∧
      resp.success = true ∧ resp.status = .REFUNDED ∧
      ∀ q ∈ db2.payments, q.sbp_id = c5Payment.sbp_id →
        q.order_state = .REFUNDED ∧ q.error_code = some c5ErrGw.errorCode) :=
  c5_business_error_masks_state c5Db "ORD5" c5ErrGw 9 none c5Payment
    (by decide) (by decide)

theorem callback_call_binding_fails :
    kwargs_bind_ok process_callback_payment_params callback_handler_kwargs =
      false := by decide

/-- C6: every notification that passes the callback endpoint field checks
reaches the service call, whose keyword binding fails — md_order is passed
while the parameter is named order_id — so the call raises TypeError, the
generic handler answers HTTP 500 Failed to process callback, and the store
is returned unchanged: no payment state ever changes through the callback
path. -/
theorem c6_callback_typeerror_answers_500 (atolFails : Bool) (db : Db)
    (md onum op : String) (st : Int) (now : Nat)
    (hmd : md ≠ "") (honum : onum ≠ "") (hop : op ≠ "") :
    handle_payment_callback atolFails db
      { mdOrder := some md, orderNumber := some onum
        operation := some op, status := some st } now = (db, 500) := by
  simp only [handle_payment_callback]
  rw [if_neg hmd, if_neg honum, if_neg hop]
  simp [callback_service_call, callback_call_binding_fails]

/-- Witness for C6: a complete deposited notification is answered 500 and
the store is unchanged. -/
theorem c6_callback_typeerror_answers_500_witness :
    handle_payment_callback false c6Db
      { mdOrder := some "ORD2", orderNumber := some "5"
        operation := some "deposited", status := some 1 } 3 = (c6Db, 500) :=
  c6_callback_typeerror_answers_500 false c6Db "ORD2" "5" "deposited" 1 3
    (by decide) (by decide) (by decide)

/-- C7 counterexample: a well-formed notification from the source IP
10.0.0.1, which is outside the allow-list, is not rejected with the 403
authorization error — it is dispatched to the handler exactly as a request
from an allow-listed IP would be (and is answered 500 there), because
verify_callback_ip is not among the dependencies of the wired callback
route; the claim that the origin check runs on the wired endpoint is
false. -/
theorem c7_unlisted_ip_not_rejected_counterexample :
    dispatch_callback false c7Db (some "10.0.0.1") c7Body 1 = (c7Db, 500) ∧
    dispatch_callback false c7Db (some "10.0.0.1") c7Body 1 =
      dispatch_callback false c7Db (some "84.252.147.143") c7Body 1 ∧
    verify_callback_ip (some "10.0.0.1") = .error "Access denied" ∧
    handle_payment_callback_dependencies.contains "verify_callback_ip" =
      false :=
  ⟨rfl, rfl, rfl, by decide⟩

/-- C7 amended: the origin allow-list check exists as verify_callback_ip
and would answer 403 for any IP outside the allow-list, but it is not
among the dependencies of the wired callback route, and the dispatch of a
notification does not depend on the source IP at all — every notification
reaches the handler whatever its origin. -/
theorem c7_origin_check_not_wired (ip : String)
    (hip : ALLOWED_CALLBACK_IPS.contains ip = false) :
    verify_callback_ip (some ip) = .error "Access denied" ∧
    handle_payment_callback_dependencies.contains "verify_callback_ip" =
      false ∧
    ∀ (b : Bool) (db : Db) (ip1 ip2 : Option String) (body : CallbackBody)
      (now : Nat),
      dispatch_callback b db ip1 body now =
        dispatch_callback b db ip2 body now := by
  refine ⟨?_, by decide, fun _ _ _ _ _ _ => rfl⟩
  simp only [verify_callback_ip, hip]
  rfl

/-- Witness for C7: the amended theorem instantiated at an IP outside the
allow-list. -/
theorem c7_origin_check_not_wired_witness :
    verify_callback_ip (some "10.9.8.7") = .error "Access denied" ∧
    handle_payment_callback_dependencies.contains "verify_callback_ip" =
      false ∧
    ∀ (b : Bool) (db : Db) (ip1 ip2 : Option String) (body : CallbackBody)
      (now : Nat),
      dispatch_callback b db ip1 body now =
        dispatch_callback b db ip2 body now :=
  c7_origin_check_not_wired "10.9.8.7" (by decide)

theorem create_qr_code_call_binding_fails :
    kwargs_bind_ok PaymentService.create_qr_code_params
      PaymentService.create_payment_qr_kwargs = false := by decide

/-- C9: the claim says an unknown-account create persists a DECLINED
record, answers success false with status DECLINED, and never invokes the
gateway.  Evaluating create_payment at such a request (a store with no
CUSTOMER rows, so the lookup would miss) shows the code aborts earlier:
the initial insert of the CREATED row carries uid None into the NOT NULL
uid column of PAY_SBP_LOG2, the insert fails and PaymentException is
raised before the CUSTOMER lookup — nothing is persisted, no response is
returned (the gateway call site is indeed never reached, but only
because the call aborts), so the DECLINED path the claim describes is
dead code. -/
theorem c9_create_payment_aborts_on_null_uid :
    PaymentService.create_payment c9Db c9Req "rq9" 4 =
      (c9Db, .error "Failed to create payment", false) ∧
    PaymentService.get_customer_uid c9Db c9Req.account = none :=
  ⟨rfl, rfl⟩

/-- Witness for C10: the theorem instantiated at the paid payment not yet
fiscalized, with the fiscal call failing. -/
theorem c10_fiscal_failure_isolated_witness :
    PaymentService.process_paid_payment true c10Db c10Payment 5 =
      (c10Db1, [1]) ∧
    c10Db1.payments = c10Db.payments ∧
    c10Db.fees.length + 1 = c10Db1.fees.length :=
  c10_fiscal_failure_isolated c10Db c10Payment 5 1 c10Db1 (by decide) true
